import Mathlib

/-!
# Subscription aggregator: HTTP handlers over one table

A shallow embedding of `internal/subscription/handler.go`.

* Go strings are Lean `String`s. A date is parsed on its list of characters: a character
  outside `'0'..'9'` is never a digit, as no byte of it is one in Go.
* The connection pool is a record of functions over an abstract store `σ`; every handler
  returns the final `ResponseWriter`, the store, and the list of statements it sent to the
  pool, each with the flag whether the call returned an error.
* `time.Parse`, `http.ResponseWriter`, `http.Error`, `url.Values.Get` (Go standard library)
  and `pgx.Rows` are libraries the handlers call; they are embedded from the library
  semantics, `time.Parse` for the only layout the handlers use, `"01-2006"`.
* `json` decoding and encoding are parameters of the handlers (`Json`), as is the value
  `uuid.New()` returns.
-/

namespace SubAgg

/-! ## `time.Parse("01-2006", _)` -/

/-- Value of `time.Time` as far as the layout `"01-2006"` can set it: year, month and the
day, which `Parse` defaults to 1. -/
structure Time where
  year : Int
  month : Nat
  day : Nat
deriving DecidableEq, Repr

/-- Go `isDigit(s, i)`: index in range and the byte there in `'0'..'9'`. -/
def isDigit (s : List Char) (i : Nat) : Bool :=
  match s.get? i with
  | none => false
  | some c => decide (48 ≤ c.toNat) && decide (c.toNat ≤ 57)

/-- Numeric value of a digit byte, `int(c - '0')`. -/
def digitVal (c : Char) : Nat := c.toNat - 48

/-- Go `getnum(s, fixed)`: one or two leading digits; with `fixed` exactly two. -/
def getnum (s : List Char) (fixed : Bool) : Option (Nat × List Char) :=
  if !isDigit s 0 then none
  else if !isDigit s 1 then
    if fixed then none
    else some (digitVal (s.headD '0'), s.drop 1)
  else some (digitVal (s.headD '0') * 10 + digitVal ((s.drop 1).headD '0'), s.drop 2)

/-- Go `leadingInt(s)`: consume leading digits into `x`, failing on overflow of 2^63. -/
def leadingInt : List Char → Nat → Option (Nat × List Char)
  | [], x => some (x, [])
  | c :: rest, x =>
    if c.toNat < 48 ∨ 57 < c.toNat then some (x, c :: rest)
    else if x > 2 ^ 63 / 10 then none
    else
      let x1 := x * 10 + (c.toNat - 48)
      if x1 > 2 ^ 63 then none else leadingInt rest x1

/-- Go `atoi(s)`: optional sign, then digits all the way to the end. -/
def atoi (s : List Char) : Option Int :=
  let neg := decide (s.head? = some '-')
  let s1 := if s.head? = some '-' ∨ s.head? = some '+' then s.drop 1 else s
  match leadingInt s1 0 with
  | none => none
  | some (q, rem) =>
    if rem.length > 0 then none
    else if neg then some (-(q : Int)) else some (q : Int)

/-- Go `skip(value, prefix)` for a prefix without spaces: the literal text must match. -/
def skip : List Char → List Char → Option (List Char)
  | value, [] => some value
  | [], _ :: _ => none
  | v :: value, p :: pre => if v ≠ p then none else skip value pre

/-- Go `time.Parse("01-2006", value)`. The layout splits into the chunks `01` (zero-padded
month), the literal `-` and `2006` (four-digit year); text left over is an error. The day
is not in the layout and is 1, always inside the month. -/
def timeParse (value : String) : Option Time :=
  match getnum value.data true with
  | none => none
  | some (month, value1) =>
    if month ≤ 0 ∨ 12 < month then none
    else
      match skip value1 ['-'] with
      | none => none
      | some value2 =>
        if value2.length < 4 ∨ !isDigit value2 0 then none
        else
          match atoi (value2.take 4) with
          | none => none
          | some year =>
            if (value2.drop 4).length > 0 then none
            else some ⟨year, month, 1⟩

/-- The date format in the words of the specification: a two-digit month between 01 and
12, a dash, a four-digit year, nothing before or after. -/
def isMonthYearText (s : String) : Bool :=
  match s.data with
  | [m1, m2, d, y1, y2, y3, y4] =>
    m1.isDigit && m2.isDigit && (d == '-') &&
    y1.isDigit && y2.isDigit && y3.isDigit && y4.isDigit &&
    decide (1 ≤ (m1.toNat - 48) * 10 + (m2.toNat - 48)) &&
    decide ((m1.toNat - 48) * 10 + (m2.toNat - 48) ≤ 12)
  | _ => false

/-! ## `net/http`: the response writer -/

/-- Go `http.Header`, restricted to one value per key. -/
abbrev Header := List (String × String)

/-- Go `Header.Del(key)`. -/
def Header.Del (h : Header) (key : String) : Header :=
  h.filter (fun p => p.1 != key)

/-- Go `Header.Set(key, value)`: the key's values are replaced by the single `value`. -/
def Header.Set (h : Header) (key value : String) : Header :=
  h.filter (fun p => p.1 != key) ++ [(key, value)]

/-- Go `Header.Get(key)`: the first value of the key, `""` when there is none. -/
def Header.Get (h : Header) (key : String) : String :=
  match h.find? (fun p => p.1 == key) with
  | none => ""
  | some p => p.2

/-- State of a server-side `http.ResponseWriter`. `handlerHeader` is the map `Header()`
returns. `WriteHeader` fixes the status and snapshots the header map into `sentHeader`:
the header map changed after `WriteHeader` (or after the first `Write`) is not sent. The
headers the server adds on its own (`Date`, `Content-Length`, a sniffed `Content-Type`)
are not part of the model. -/
structure ResponseWriter where
  handlerHeader : Header
  wroteHeader : Bool
  status : Nat
  sentHeader : Header
  body : String
deriving DecidableEq, Repr

/-- The writer a handler receives: nothing set, nothing written. -/
def ResponseWriter.new : ResponseWriter := ⟨[], false, 0, [], ""⟩

/-- Go `w.Header().Set(key, value)`. -/
def ResponseWriter.HeaderSet (w : ResponseWriter) (key value : String) : ResponseWriter :=
  { w with handlerHeader := w.handlerHeader.Set key value }

/-- Go `w.Header().Del(key)`. -/
def ResponseWriter.HeaderDel (w : ResponseWriter) (key : String) : ResponseWriter :=
  { w with handlerHeader := w.handlerHeader.Del key }

/-- Go `w.WriteHeader(code)`: the first call fixes status and headers, later calls are
ignored. -/
def ResponseWriter.WriteHeader (w : ResponseWriter) (code : Nat) : ResponseWriter :=
  if w.wroteHeader then w
  else { w with wroteHeader := true, status := code, sentHeader := w.handlerHeader }

/-- Go `w.Write(data)`: writes the header with status 200 first if none was written. -/
def ResponseWriter.Write (w : ResponseWriter) (data : String) : ResponseWriter :=
  let w1 := if w.wroteHeader then w else w.WriteHeader 200
  { w1 with body := w1.body ++ data }

/-- Status the client receives: a handler that returns without writing answers 200. -/
def ResponseWriter.statusCode (w : ResponseWriter) : Nat :=
  if w.wroteHeader then w.status else 200

/-- Headers the client receives from the handler. -/
def ResponseWriter.responseHeader (w : ResponseWriter) : Header :=
  if w.wroteHeader then w.sentHeader else w.handlerHeader

/-- Go `http.Error(w, error, code)`. -/
def httpError (w : ResponseWriter) (error : String) (code : Nat) : ResponseWriter :=
  let w1 := w.HeaderDel "Content-Length"
  let w2 := w1.HeaderSet "Content-Type" "text/plain; charset=utf-8"
  let w3 := w2.HeaderSet "X-Content-Type-Options" "nosniff"
  let w4 := w3.WriteHeader code
  w4.Write (error ++ "\n")

def StatusCreated : Nat := 201
def StatusNoContent : Nat := 204
def StatusBadRequest : Nat := 400
def StatusNotFound : Nat := 404
def StatusInternalServerError : Nat := 500

/-! ## Requests -/

/-- Go `url.Values`, a map from key to values; a key that is absent maps to no value. -/
abbrev Values := String → List String

/-- Go `Values.Get(key)`: the first value of the key, `""` when the key has none. -/
def Values.Get (v : Values) (key : String) : String :=
  match v key with
  | [] => ""
  | x :: _ => x

/-- What a handler reads of `*http.Request`: `r.URL.Query()`, `mux.Vars(r)` (a missing
variable reads as `""`) and the body. -/
structure Request where
  query : Values
  vars : String → String
  body : String

/-! ## Data model -/

/-- Value of `uuid.UUID`, identified with its canonical text (the form `json` writes). -/
structure UUID where
  text : String
deriving DecidableEq, Repr

structure CreateSubscriptionRequest where
  ServiceName : String
  Price : Int
  UserID : UUID
  StartDate : String
  EndDate : Option String
deriving DecidableEq, Repr

structure UpdateSubscriptionRequest where
  ServiceName : String
  Price : Int
  StartDate : String
  EndDate : Option String
deriving DecidableEq, Repr

/-- Modelled from the spec: the struct `Subscription` is declared in a file of the package
that is not among the sources; the specification gives its shape as `id`, `service_name`,
`price`, `user_id`, `start_date`, `end_date` (nullable). -/
structure Subscription where
  ID : UUID
  ServiceName : String
  Price : Int
  UserID : UUID
  StartDate : Time
  EndDate : Option Time
deriving DecidableEq, Repr

/-! ## The connection pool -/

/-- A value bound to a placeholder (`interface{}` argument of `Exec`, `Query`, `QueryRow`). -/
inductive Arg where
  | str (s : String)
  | int (n : Int)
  | uuid (u : UUID)
  | time (t : Time)
  | timePtr (t : Option Time)
deriving DecidableEq, Repr

/-- One statement sent to the pool: its text, its bound arguments, and whether the call
came back with a non-nil error. -/
structure Call where
  sql : String
  args : List Arg
  failed : Bool
deriving DecidableEq, Repr

/-- The `pgx.Rows` answered by `Query`: the rows in order, each with the result of its
`Scan` (`none` when the scan fails), and the error `rows.Err()` holds once `Next` has
returned false, for a query that failed while its rows were being read. -/
structure Rows where
  scans : List (Option Subscription)
  err : Option String
deriving DecidableEq, Repr

/-- The `*pgxpool.Pool` a handler is given, over a store `σ`. `Exec` answers the number of
affected rows. `Query` answers an error or the rows. `QueryRowInt` and
`QueryRowSubscription` are `QueryRow(..).Scan(..)` into an `int` and into the six fields of
a `Subscription`; their error is the one `Scan` returns. -/
structure Pool (σ : Type) where
  Exec : σ → String → List Arg → Except String Nat × σ
  Query : σ → String → List Arg → Except String Rows × σ
  QueryRowInt : σ → String → List Arg → Except String Int × σ
  QueryRowSubscription : σ → String → List Arg → Except String Subscription × σ

/-- The `encoding/json` functions the handlers call, for the types they are called at. -/
structure Json where
  decodeCreate : String → Option CreateSubscriptionRequest
  decodeUpdate : String → Option UpdateSubscriptionRequest
  encodeSubscription : Subscription → String
  encodeSubscriptions : List Subscription → String

/-- Result of running a handler: the response writer as the handler leaves it, the store,
and the statements sent to the pool, in order. -/
structure Outcome (σ : Type) where
  w : ResponseWriter
  store : σ
  calls : List Call

/-- Status of the response. -/
def Outcome.status {σ : Type} (o : Outcome σ) : Nat := o.w.statusCode

/-! ## Handlers -/

/-- Text of the INSERT statement of `CreateSubscriptionHandler`. -/
def insertSQL : String :=
  "INSERT INTO subscriptions (id, service_name, price, user_id, start_date, end_date)\n             VALUES ($1, $2, $3, $4, $5, $6)"

/-- Text of the SELECT statement of `GetAllSubscriptionsHandler`. -/
def selectAllSQL : String :=
  "SELECT id, service_name, price, user_id, start_date, end_date FROM subscriptions"

/-- Text of the SELECT statement of `GetSubscriptionByIDHandler`. -/
def selectByIDSQL : String :=
  "SELECT id, service_name, price, user_id, start_date, end_date\n             FROM subscriptions WHERE id = $1"

/-- Text of the UPDATE statement of `UpdateSubscriptionHandler`. -/
def updateSQL : String :=
  "UPDATE subscriptions SET service_name = $1, price = $2, start_date = $3, end_date = $4 WHERE id = $5"

/-- Text of the DELETE statement of `DeleteSubscriptionHandler`. -/
def deleteSQL : String := "DELETE FROM subscriptions WHERE id = $1"

/-- `CreateSubscriptionHandler`; `id` is the value `uuid.New()` returns in this call. -/
def CreateSubscriptionHandler {σ : Type} (db : Pool σ) (js : Json) (id : UUID) (st : σ)
    (r : Request) : Outcome σ :=
  let w := ResponseWriter.new
  match js.decodeCreate r.body with
  | none => ⟨httpError w "invalid request" StatusBadRequest, st, []⟩
  | some req =>
    match timeParse req.StartDate with
    | none => ⟨httpError w "invalid start date" StatusBadRequest, st, []⟩
    | some startDate =>
      let endDate : Option (Option Time) :=
        match req.EndDate with
        | none => some none
        | some e =>
          match timeParse e with
          | none => none
          | some ed => some (some ed)
      match endDate with
      | none => ⟨httpError w "invalid end date" StatusBadRequest, st, []⟩
      | some endDatePtr =>
        let args := [Arg.uuid id, Arg.str req.ServiceName, Arg.int req.Price,
          Arg.uuid req.UserID, Arg.time startDate, Arg.timePtr endDatePtr]
        match db.Exec st insertSQL args with
        | (Except.error _, st1) =>
          ⟨httpError w "failed to insert subscription" StatusInternalServerError, st1,
            [⟨insertSQL, args, true⟩]⟩
        | (Except.ok _, st1) =>
          let w1 := w.WriteHeader StatusCreated
          let w2 := w1.HeaderSet "Content-Type" "application/json"
          let w3 := w2.Write ("\x7b\"id\":\"" ++ id.text ++ "\"\x7d\n")
          ⟨w3, st1, [⟨insertSQL, args, false⟩]⟩

/-- The row loop of `GetAllSubscriptionsHandler`: append each scanned row to `subs`, stop
with `none` at the first row whose scan fails. -/
def scanRows : List (Option Subscription) → List Subscription → Option (List Subscription)
  | [], subs => some subs
  | none :: _, _ => none
  | some sub :: rest, subs => scanRows rest (subs ++ [sub])

/-- `GetAllSubscriptionsHandler`. The handler calls `rows.Next` and `rows.Scan` only;
`rows.Err()` is not read. -/
def GetAllSubscriptionsHandler {σ : Type} (db : Pool σ) (js : Json) (st : σ)
    (_r : Request) : Outcome σ :=
  let w := ResponseWriter.new
  match db.Query st selectAllSQL [] with
  | (Except.error _, st1) =>
    ⟨httpError w "failed to get subscriptions" StatusInternalServerError, st1,
      [⟨selectAllSQL, [], true⟩]⟩
  | (Except.ok rows, st1) =>
    match scanRows rows.scans [] with
    | none =>
      ⟨httpError w "scan error" StatusInternalServerError, st1, [⟨selectAllSQL, [], false⟩]⟩
    | some subs =>
      let w1 := w.HeaderSet "Content-Type" "application/json"
      ⟨w1.Write (js.encodeSubscriptions subs ++ "\n"), st1, [⟨selectAllSQL, [], false⟩]⟩

/-- Lines 140 to 163 of `GetTotalSubscriptionsHandler`: the conditions and the arguments
collected from the three query values, `none` when `start_date` is there and does not
parse. `Sprintf("... $%d", idx)` writes `idx` in decimal. -/
def totalFilters (userIDStr serviceName startDateStr : String) :
    Option (List String × List Arg) :=
  let conditions : List String := []
  let args : List Arg := []
  let idx : Nat := 1
  let (conditions, args, idx) :=
    if userIDStr ≠ "" then
      (conditions ++ ["user_id = $" ++ toString idx], args ++ [Arg.str userIDStr], idx + 1)
    else (conditions, args, idx)
  let (conditions, args, idx) :=
    if serviceName ≠ "" then
      (conditions ++ ["service_name = $" ++ toString idx], args ++ [Arg.str serviceName],
        idx + 1)
    else (conditions, args, idx)
  if startDateStr ≠ "" then
    match timeParse startDateStr with
    | none => none
    | some t =>
      some (conditions ++ ["start_date >= $" ++ toString idx], args ++ [Arg.time t])
  else some (conditions, args)

/-- Lines 164 to 167 of `GetTotalSubscriptionsHandler`: the statement text for the
collected conditions. -/
def totalSQL (conditions : List String) : String :=
  let sql := "SELECT COALESCE(SUM(price), 0) FROM subscriptions"
  if conditions.length > 0 then sql ++ (" WHERE " ++ String.intercalate " AND " conditions)
  else sql

/-- `GetTotalSubscriptionsHandler`. -/
def GetTotalSubscriptionsHandler {σ : Type} (db : Pool σ) (st : σ) (r : Request) :
    Outcome σ :=
  let w := ResponseWriter.new
  let q := r.query
  let userIDStr := Values.Get q "user_id"
  let serviceName := Values.Get q "service_name"
  let startDateStr := Values.Get q "start_date"
  match totalFilters userIDStr serviceName startDateStr with
  | none => ⟨httpError w "invalid start_date format" StatusBadRequest, st, []⟩
  | some (conditions, args) =>
    let sql := totalSQL conditions
    match db.QueryRowInt st sql args with
    | (Except.error _, st1) =>
      ⟨httpError w "db error" StatusInternalServerError, st1, [⟨sql, args, true⟩]⟩
    | (Except.ok total, st1) =>
      let w1 := w.HeaderSet "Content-Type" "application/json"
      ⟨w1.Write ("\x7b\"total\":" ++ toString total ++ "\x7d\n"), st1, [⟨sql, args, false⟩]⟩

/-- `GetSubscriptionByIDHandler`. -/
def GetSubscriptionByIDHandler {σ : Type} (db : Pool σ) (js : Json) (st : σ)
    (r : Request) : Outcome σ :=
  let w := ResponseWriter.new
  let id := r.vars "id"
  match db.QueryRowSubscription st selectByIDSQL [Arg.str id] with
  | (Except.error _, st1) =>
    ⟨httpError w "subscription not found" StatusNotFound, st1,
      [⟨selectByIDSQL, [Arg.str id], true⟩]⟩
  | (Except.ok sub, st1) =>
    let w1 := w.HeaderSet "Content-Type" "application/json"
    ⟨w1.Write (js.encodeSubscription sub ++ "\n"), st1, [⟨selectByIDSQL, [Arg.str id], false⟩]⟩

/-- `UpdateSubscriptionHandler`. -/
def UpdateSubscriptionHandler {σ : Type} (db : Pool σ) (js : Json) (st : σ)
    (r : Request) : Outcome σ :=
  let w := ResponseWriter.new
  let id := r.vars "id"
  match js.decodeUpdate r.body with
  | none => ⟨httpError w "invalid request" StatusBadRequest, st, []⟩
  | some req =>
    match timeParse req.StartDate with
    | none => ⟨httpError w "invalid start date" StatusBadRequest, st, []⟩
    | some startDate =>
      let endDate : Option (Option Time) :=
        match req.EndDate with
        | none => some none
        | some e =>
          match timeParse e with
          | none => none
          | some ed => some (some ed)
      match endDate with
      | none => ⟨httpError w "invalid end date" StatusBadRequest, st, []⟩
      | some endDatePtr =>
        let args := [Arg.str req.ServiceName, Arg.int req.Price, Arg.time startDate,
          Arg.timePtr endDatePtr, Arg.str id]
        match db.Exec st updateSQL args with
        | (Except.error _, st1) =>
          ⟨httpError w "failed to update" StatusInternalServerError, st1,
            [⟨updateSQL, args, true⟩]⟩
        | (Except.ok _, st1) =>
          ⟨w.WriteHeader StatusNoContent, st1, [⟨updateSQL, args, false⟩]⟩

/-- `DeleteSubscriptionHandler`. -/
def DeleteSubscriptionHandler {σ : Type} (db : Pool σ) (st : σ) (r : Request) :
    Outcome σ :=
  let w := ResponseWriter.new
  let id := r.vars "id"
  match db.Exec st deleteSQL [Arg.str id] with
  | (Except.error _, st1) =>
    ⟨httpError w "db error" StatusInternalServerError, st1, [⟨deleteSQL, [Arg.str id], true⟩]⟩
  | (Except.ok rowsAffected, st1) =>
    if rowsAffected = 0 then
      ⟨httpError w "subscription not found" StatusNotFound, st1,
        [⟨deleteSQL, [Arg.str id], false⟩]⟩
    else ⟨w.WriteHeader StatusNoContent, st1, [⟨deleteSQL, [Arg.str id], false⟩]⟩

/-! ## The specification's wording, for comparison -/

/-- The conditions in the words of the specification: the conditions of the supplied
parameters only, in the order `user_id`, `service_name`, `start_date`, the k-th of them
(from 1) with the placeholder `$k`. -/
def specConditions (user service start : Bool) : List String :=
  let cols := (if user then ["user_id = "] else []) ++
    (if service then ["service_name = "] else []) ++
    (if start then ["start_date >= "] else [])
  (List.enum cols).map (fun p => p.2 ++ "$" ++ toString (p.1 + 1))

/-- The statement text in the words of the specification: the bare SELECT when nothing is
supplied, else the SELECT, `" WHERE "` and the conditions joined by `" AND "`. -/
def specTotalSQL (user service start : Bool) : String :=
  match specConditions user service start with
  | [] => "SELECT COALESCE(SUM(price), 0) FROM subscriptions"
  | c :: cs =>
    "SELECT COALESCE(SUM(price), 0) FROM subscriptions" ++ " WHERE " ++
      String.intercalate " AND " (c :: cs)

/-- A query parameter counts as supplied when `q.Get` reads a non-empty value for it. -/
def supplied (q : Values) (key : String) : Bool := decide (Values.Get q key ≠ "")

/-! ## Concrete pools and requests, for evaluation -/

/-- A pool over a counter of statements run: every statement fails when `fail` is set,
otherwise `Exec` affects `n` rows, `Query` answers `rows`, the total is `n`. -/
def countingPool (fail : Bool) (n : Nat) (rows : List (Option Subscription)) : Pool Nat where
  Exec st _ _ := (if fail then Except.error "connection refused" else Except.ok n, st + 1)
  Query st _ _ :=
    (if fail then Except.error "connection refused" else Except.ok ⟨rows, none⟩, st + 1)
  QueryRowInt st _ _ :=
    (if fail then Except.error "connection refused" else Except.ok (n : Int), st + 1)
  QueryRowSubscription st _ _ :=
    (match fail, rows with
      | false, some sub :: _ => Except.ok sub
      | false, _ => Except.error "no rows in result set"
      | true, _ => Except.error "connection refused", st + 1)

/-- A decoder that answers the given requests whatever the body, and encoders that write a
fixed text. -/
def fixedJson (c : Option CreateSubscriptionRequest) (u : Option UpdateSubscriptionRequest) :
    Json where
  decodeCreate _ := c
  decodeUpdate _ := u
  encodeSubscription _ := "\x7b\x7d"
  encodeSubscriptions _ := "[]"

/-- A query with the given values for `user_id`, `service_name` and `start_date` (no value:
the key is absent). -/
def queryOf (user service start : List String) : Values := fun key =>
  if key = "user_id" then user
  else if key = "service_name" then service
  else if key = "start_date" then start
  else []

/-- A request with the given query, the path variable `id` and the body. -/
def requestOf (q : Values) (id body : String) : Request :=
  ⟨q, fun key => if key = "id" then id else "", body⟩

def sampleUser : UUID := ⟨"60601fee-2bf1-4721-ae6f-7636e79a0cba"⟩
def sampleID : UUID := ⟨"7d0a4b1e-93f0-4c0e-8a59-2f6c3b1d5e42"⟩

def sampleCreate (start : String) (fin : Option String) : CreateSubscriptionRequest :=
  ⟨"Yandex Plus", 400, sampleUser, start, fin⟩

def sampleUpdate (start : String) (fin : Option String) : UpdateSubscriptionRequest :=
  ⟨"Yandex Plus", 450, start, fin⟩

/-- The handler aborted on a validation failure: status 400, the body is the message as
`http.Error` writes it (the message and a newline), the store is the one the handler
started from, and no statement was sent. -/
def abortsWith {σ : Type} (o : Outcome σ) (st : σ) (msg : String) : Prop :=
  o.status = StatusBadRequest ∧ o.w.body = msg ++ "\n" ∧ o.store = st ∧ o.calls = []

/-- Some statement the handler sent came back with an error. -/
def statementFailed {σ : Type} (o : Outcome σ) : Prop :=
  ∃ c ∈ o.calls, c.failed = true

theorem char_isDigit_iff (c : Char) : c.isDigit = true ↔ 48 ≤ c.toNat ∧ c.toNat ≤ 57 := by
  simp only [Char.isDigit, Bool.and_eq_true, decide_eq_true_eq, Char.toNat, ge_iff_le,
    UInt32.le_def, Fin.le_def]
  rfl

theorem leadingInt_digit (c : Char) (rest : List Char) (x : Nat)
    (hc : 48 ≤ c.toNat ∧ c.toNat ≤ 57) (hx : x ≤ 1000) :
    leadingInt (c :: rest) x = leadingInt rest (x * 10 + (c.toNat - 48)) := by
  have h1 : ¬ (c.toNat < 48 ∨ 57 < c.toNat) := by omega
  have h2 : ¬ (x > 2 ^ 63 / 10) := by norm_num; omega
  have h3 : ¬ (x * 10 + (c.toNat - 48) > 2 ^ 63) := by norm_num; omega
  simp only [leadingInt, h1, h2, h3, if_false]

theorem leadingInt_nondigit (c : Char) (rest : List Char) (x : Nat)
    (hc : ¬ (48 ≤ c.toNat ∧ c.toNat ≤ 57)) :
    leadingInt (c :: rest) x = some (x, c :: rest) := by
  have h1 : (c.toNat < 48 ∨ 57 < c.toNat) := by omega
  simp only [leadingInt, h1, if_true]


theorem getnum_two (a b : Char) (t : List Char) :
    getnum (a :: b :: t) true =
      if (48 ≤ a.toNat ∧ a.toNat ≤ 57) ∧ (48 ≤ b.toNat ∧ b.toNat ≤ 57)
      then some ((a.toNat - 48) * 10 + (b.toNat - 48), t) else none := by
  by_cases ha : 48 ≤ a.toNat ∧ a.toNat ≤ 57 <;> by_cases hb : 48 ≤ b.toNat ∧ b.toNat ≤ 57 <;>
    simp [getnum, isDigit, digitVal, ha, hb]


theorem atoi_four (y1 y2 y3 y4 : Char) (h1 : 48 ≤ y1.toNat ∧ y1.toNat ≤ 57) :
    atoi [y1, y2, y3, y4] =
      if (48 ≤ y2.toNat ∧ y2.toNat ≤ 57) ∧ (48 ≤ y3.toNat ∧ y3.toNat ≤ 57) ∧
          (48 ≤ y4.toNat ∧ y4.toNat ≤ 57)
      then some ((((((y1.toNat - 48) * 10 + (y2.toNat - 48)) * 10 + (y3.toNat - 48)) * 10
        + (y4.toNat - 48) : Nat) : Int))
      else none := by
  have hm : y1 ≠ '-' := by rintro rfl; simp at h1
  have hp : y1 ≠ '+' := by rintro rfl; simp at h1
  have e1 : leadingInt [y1, y2, y3, y4] 0 = leadingInt [y2, y3, y4] (y1.toNat - 48) := by
    rw [leadingInt_digit y1 _ 0 h1 (by omega)]; simp
  simp only [atoi, List.head?_cons, Option.some.injEq, hm, hp, or_self, if_false,
    decide_False, e1]
  by_cases h2 : 48 ≤ y2.toNat ∧ y2.toNat ≤ 57
  · rw [leadingInt_digit y2 _ _ h2 (by omega)]
    by_cases h3 : 48 ≤ y3.toNat ∧ y3.toNat ≤ 57
    · rw [leadingInt_digit y3 _ _ h3 (by omega)]
      by_cases h4 : 48 ≤ y4.toNat ∧ y4.toNat ≤ 57
      · rw [leadingInt_digit y4 _ _ h4 (by omega)]
        simp [leadingInt, h2, h3, h4]
      · rw [leadingInt_nondigit y4 _ _ h4]
        simp [h2, h3, h4]
    · rw [leadingInt_nondigit y3 _ _ h3]
      simp [h2, h3]
  · rw [leadingInt_nondigit y2 _ _ h2]
    simp [h2]


theorem timeParse_seven (m1 m2 d y1 y2 y3 y4 : Char) :
    timeParse ⟨[m1, m2, d, y1, y2, y3, y4]⟩ =
      if (48 ≤ m1.toNat ∧ m1.toNat ≤ 57) ∧ (48 ≤ m2.toNat ∧ m2.toNat ≤ 57) ∧ d = '-' ∧
          (48 ≤ y1.toNat ∧ y1.toNat ≤ 57) ∧ (48 ≤ y2.toNat ∧ y2.toNat ≤ 57) ∧
          (48 ≤ y3.toNat ∧ y3.toNat ≤ 57) ∧ (48 ≤ y4.toNat ∧ y4.toNat ≤ 57) ∧
          1 ≤ (m1.toNat - 48) * 10 + (m2.toNat - 48) ∧
          (m1.toNat - 48) * 10 + (m2.toNat - 48) ≤ 12
      then some ⟨(((((y1.toNat - 48) * 10 + (y2.toNat - 48)) * 10 + (y3.toNat - 48)) * 10
        + (y4.toNat - 48) : Nat) : Int), (m1.toNat - 48) * 10 + (m2.toNat - 48), 1⟩
      else none := by
  simp only [timeParse, getnum_two]
  by_cases hm : (48 ≤ m1.toNat ∧ m1.toNat ≤ 57) ∧ (48 ≤ m2.toNat ∧ m2.toNat ≤ 57)
  · rw [if_pos hm]
    by_cases hr : 1 ≤ (m1.toNat - 48) * 10 + (m2.toNat - 48) ∧
        (m1.toNat - 48) * 10 + (m2.toNat - 48) ≤ 12
    · have hr2 : ¬ ((m1.toNat - 48) * 10 + (m2.toNat - 48) ≤ 0 ∨
          12 < (m1.toNat - 48) * 10 + (m2.toNat - 48)) := by omega
      simp only [hr2, if_false]
      by_cases hd : d = '-'
      · subst hd
        by_cases h1 : 48 ≤ y1.toNat ∧ y1.toNat ≤ 57
        · simp [skip, isDigit, atoi_four _ _ _ _ h1, hm, hr, h1]
          by_cases h234 : (48 ≤ y2.toNat ∧ y2.toNat ≤ 57) ∧ (48 ≤ y3.toNat ∧ y3.toNat ≤ 57) ∧
              (48 ≤ y4.toNat ∧ y4.toNat ≤ 57)
          · simp [h234]
          · simp [h234]
        · simp [skip, isDigit, h1]
      · simp [skip, hd]
    · have hr2 : ((m1.toNat - 48) * 10 + (m2.toNat - 48) ≤ 0 ∨
          12 < (m1.toNat - 48) * 10 + (m2.toNat - 48)) := by omega
      simp only [hr2, if_true]
      rw [if_neg]; tauto
  · rw [if_neg hm]; simp only []
    rw [if_neg]; tauto


theorem timeParse_length (l : List Char) (t : Time) (h : timeParse ⟨l⟩ = some t) :
    l.length = 7 := by
  match l, h with
  | [], h => simp [timeParse, getnum, isDigit] at h
  | [a], h => simp [timeParse, getnum, isDigit] at h
  | a :: b :: r, h =>
    by_cases hm : (48 ≤ a.toNat ∧ a.toNat ≤ 57) ∧ (48 ≤ b.toNat ∧ b.toNat ≤ 57)
    · simp only [timeParse, getnum_two, if_pos hm] at h
      by_cases hr : (a.toNat - 48) * 10 + (b.toNat - 48) ≤ 0 ∨
          12 < (a.toNat - 48) * 10 + (b.toNat - 48)
      · simp only [if_pos hr] at h
        exact absurd h (by simp)
      · simp only [if_neg hr] at h
        match r, h with
        | [], h => simp [skip] at h
        | d :: y, h =>
          by_cases hd : d = '-'
          · subst hd
            simp only [skip, ne_eq, not_true_eq_false, if_false] at h
            by_cases hl : y.length < 4 ∨ (!isDigit y 0) = true
            · simp only [if_pos hl] at h
              exact absurd h (by simp)
            · simp only [if_neg hl] at h
              by_cases hx : (y.drop 4).length > 0
              · cases hy : atoi (List.take 4 y) with
                | none =>
                  simp only [hy] at h
                  exact absurd h (by simp)
                | some year =>
                  simp only [hy, if_pos hx] at h
                  exact absurd h (by simp)
              · simp only [List.length_drop, List.length_cons] at hx ⊢
                simp only [not_or, not_lt] at hl
                omega
          · simp [skip, hd] at h
    · simp only [timeParse, getnum_two, if_neg hm] at h
      exact absurd h (by simp)

theorem timeParse_isSome_iff (s : String) :
    (timeParse s).isSome = true ↔ isMonthYearText s = true := by
  rcases s with ⟨l⟩
  constructor
  · intro h
    obtain ⟨t, ht⟩ := Option.isSome_iff_exists.mp h
    have hl := timeParse_length l t ht
    match l, hl, ht with
    | [m1, m2, d, y1, y2, y3, y4], _, ht =>
      rw [timeParse_seven] at ht
      split at ht
      · rename_i hc
        obtain ⟨h1, h2, h3, h4, h5, h6, h7, h8, h9⟩ := hc
        simp [isMonthYearText, char_isDigit_iff, h1, h2, h3, h4, h5, h6, h7, h8, h9]
      · simp at ht
  · intro h
    match l, h with
    | [m1, m2, d, y1, y2, y3, y4], h =>
      simp only [isMonthYearText, Bool.and_eq_true, char_isDigit_iff, beq_iff_eq,
        decide_eq_true_eq] at h
      rw [timeParse_seven, if_pos (by tauto)]
      rfl
    | [], h | [_], h | [_, _], h | [_, _, _], h | [_, _, _, _], h | [_, _, _, _, _], h
    | [_, _, _, _, _, _], h | _ :: _ :: _ :: _ :: _ :: _ :: _ :: _ :: _, h =>
      simp [isMonthYearText] at h

/-! ## The aggregate-total handler: lemmas -/

theorem totalFilters_none_iff (u s d : String) :
    totalFilters u s d = none ↔ d ≠ "" ∧ timeParse d = none := by
  by_cases hd : d = ""
  · simp [totalFilters, hd]
  · cases ht : timeParse d <;> simp [totalFilters, hd, ht]

theorem totalFilters_conditions (u s d : String) (conds : List String) (args : List Arg)
    (h : totalFilters u s d = some (conds, args)) :
    conds = specConditions (decide (u ≠ "")) (decide (s ≠ "")) (decide (d ≠ "")) := by
  by_cases hu : u = "" <;> by_cases hs : s = "" <;> by_cases hd : d = "" <;>
    cases ht : timeParse d <;>
    simp [totalFilters, hu, hs, hd, ht] at h <;>
    (obtain ⟨rfl, rfl⟩ := h
     first
       | decide
       | (simp only [hu, hs, hd, ne_eq, not_true_eq_false, not_false_eq_true, decide_True,
           decide_False]; decide))

theorem totalSQL_spec (a b c : Bool) :
    totalSQL (specConditions a b c) = specTotalSQL a b c := by
  cases a <;> cases b <;> cases c <;> decide

theorem total_calls_some {σ : Type} (db : Pool σ) (st : σ) (r : Request)
    (conds : List String) (args : List Arg)
    (h : totalFilters (Values.Get r.query "user_id") (Values.Get r.query "service_name")
      (Values.Get r.query "start_date") = some (conds, args)) :
    ∃ failed, (GetTotalSubscriptionsHandler db st r).calls = [⟨totalSQL conds, args, failed⟩] := by
  simp only [GetTotalSubscriptionsHandler, h]
  rcases hq : db.QueryRowInt st (totalSQL conds) args with ⟨res, st1⟩
  cases res <;> simp

theorem total_calls_none {σ : Type} (db : Pool σ) (st : σ) (r : Request)
    (h : totalFilters (Values.Get r.query "user_id") (Values.Get r.query "service_name")
      (Values.Get r.query "start_date") = none) :
    GetTotalSubscriptionsHandler db st r =
      ⟨httpError ResponseWriter.new "invalid start_date format" StatusBadRequest, st, []⟩ := by
  simp only [GetTotalSubscriptionsHandler, h]

theorem total_sql_of_valid {σ : Type} (db : Pool σ) (st : σ) (r : Request)
    (hv : supplied r.query "start_date" = true →
      isMonthYearText (Values.Get r.query "start_date") = true) :
    (GetTotalSubscriptionsHandler db st r).calls.map Call.sql =
      [specTotalSQL (supplied r.query "user_id") (supplied r.query "service_name")
        (supplied r.query "start_date")] := by
  cases hf : totalFilters (Values.Get r.query "user_id") (Values.Get r.query "service_name")
      (Values.Get r.query "start_date") with
  | none =>
    obtain ⟨h1, h2⟩ := (totalFilters_none_iff _ _ _).mp hf
    have h3 := (timeParse_isSome_iff _).mpr (hv (by simp [supplied, h1]))
    simp [h2] at h3
  | some p =>
    obtain ⟨conds, args⟩ := p
    obtain ⟨failed, hc⟩ := total_calls_some db st r conds args hf
    rw [hc, totalFilters_conditions _ _ _ _ _ hf, totalSQL_spec]
    rfl

theorem totalFilters_pairs (u s d : String) (conds : List String) (args : List Arg)
    (h : totalFilters u s d = some (conds, args)) :
    args.length = conds.length ∧
    ∀ (k : Nat) (c : String) (a : Arg), conds.get? k = some c → args.get? k = some a →
      (c = "user_id = $" ++ toString (k + 1) ∧ a = Arg.str u) ∨
      (c = "service_name = $" ++ toString (k + 1) ∧ a = Arg.str s) ∨
      (c = "start_date >= $" ++ toString (k + 1) ∧
        ∃ t, timeParse d = some t ∧ a = Arg.time t) := by
  by_cases hu : u = "" <;> by_cases hs : s = "" <;> by_cases hd : d = "" <;>
    cases ht : timeParse d <;>
    simp [totalFilters, hu, hs, hd, ht] at h <;>
    (obtain ⟨rfl, rfl⟩ := h
     refine ⟨by simp, ?_⟩
     intro k c a hc ha
     match k, hc, ha with
     | 0, hc, ha => simp at hc ha; all_goals (subst hc; subst ha; simp; try decide)
     | 1, hc, ha => simp at hc ha; all_goals (subst hc; subst ha; simp; try decide)
     | 2, hc, ha => simp at hc ha; all_goals (subst hc; subst ha; simp; try decide)
     | _ + 3, hc, ha => simp at hc)

theorem values_get_update (q : Values) (key k : String) (habs : q key = []) :
    Values.Get (Function.update q key [""]) k = Values.Get q k := by
  by_cases hk : k = key
  · subst hk
    simp [Values.Get, habs]
  · simp [Values.Get, Function.update, hk]

theorem httpError_status (msg : String) (code : Nat) :
    (httpError ResponseWriter.new msg code).statusCode = code := by
  simp [httpError, ResponseWriter.new, ResponseWriter.HeaderDel, ResponseWriter.HeaderSet,
    ResponseWriter.WriteHeader, ResponseWriter.Write, ResponseWriter.statusCode]

theorem httpError_body (msg : String) (code : Nat) :
    (httpError ResponseWriter.new msg code).body = msg ++ "\n" := by
  simp [httpError, ResponseWriter.new, ResponseWriter.HeaderDel, ResponseWriter.HeaderSet,
    ResponseWriter.WriteHeader, ResponseWriter.Write]

/-! ## The aggregate-total handler: the statement it sends -/

/-- C1: in `GetTotalSubscriptionsHandler`, when `start_date` is a valid MM-YYYY text
whenever it is supplied, the handler sends one statement and its text is the bare
`SELECT COALESCE(SUM(price), 0) FROM subscriptions` when no parameter is supplied,
otherwise that text, `" WHERE "` and the conditions of exactly the supplied parameters,
once each, in the order `user_id = `, `service_name = `, `start_date >= `, joined by
`" AND "`. A parameter is supplied when `q.Get` reads a non-empty value for it. The eight
texts are listed. -/
theorem total_sql_text {σ : Type} (db : Pool σ) (st : σ) (r : Request)
    (hv : supplied r.query "start_date" = true →
      isMonthYearText (Values.Get r.query "start_date") = true) :
    (GetTotalSubscriptionsHandler db st r).calls.map Call.sql =
      [specTotalSQL (supplied r.query "user_id") (supplied r.query "service_name")
        (supplied r.query "start_date")] ∧
    specTotalSQL false false false = "SELECT COALESCE(SUM(price), 0) FROM subscriptions" ∧
    specTotalSQL true false false =
      "SELECT COALESCE(SUM(price), 0) FROM subscriptions WHERE user_id = $1" ∧
    specTotalSQL false true false =
      "SELECT COALESCE(SUM(price), 0) FROM subscriptions WHERE service_name = $1" ∧
    specTotalSQL false false true =
      "SELECT COALESCE(SUM(price), 0) FROM subscriptions WHERE start_date >= $1" ∧
    specTotalSQL true true false =
      "SELECT COALESCE(SUM(price), 0) FROM subscriptions WHERE user_id = $1 AND service_name = $2" ∧
    specTotalSQL true false true =
      "SELECT COALESCE(SUM(price), 0) FROM subscriptions WHERE user_id = $1 AND start_date >= $2" ∧
    specTotalSQL false true true =
      "SELECT COALESCE(SUM(price), 0) FROM subscriptions WHERE service_name = $1 AND start_date >= $2" ∧
    specTotalSQL true true true =
      "SELECT COALESCE(SUM(price), 0) FROM subscriptions WHERE user_id = $1 AND service_name = $2 AND start_date >= $3" := by
  refine ⟨total_sql_of_valid db st r hv, ?_, ?_, ?_, ?_, ?_, ?_, ?_, ?_⟩ <;> decide

theorem total_sql_text_witness :
    isMonthYearText "07-2025" = true ∧
    (GetTotalSubscriptionsHandler (countingPool false 5 []) 0
      (requestOf (queryOf ["60601fee"] [] ["07-2025"]) "" "")).calls.map Call.sql =
      ["SELECT COALESCE(SUM(price), 0) FROM subscriptions WHERE user_id = $1 AND start_date >= $2"] :=
  ⟨by decide,
    (total_sql_text (countingPool false 5 []) 0
      (requestOf (queryOf ["60601fee"] [] ["07-2025"]) "" "") (by decide)).1⟩

/-- C2: whenever `GetTotalSubscriptionsHandler` reaches the query, the statement it sends
is built from a list of conditions and carries a list of arguments such that: the text is
the SELECT followed, when there are conditions, by `" WHERE "` and the conditions joined by
`" AND "`; there are as many arguments as conditions; the k-th condition (from 1) uses the
placeholder `$k`; and the k-th argument is the value of that condition's parameter: the
raw `user_id`, the raw `service_name`, or the parsed `start_date`. -/
theorem total_placeholders_match_args {σ : Type} (db : Pool σ) (st : σ) (r : Request)
    (hq : (GetTotalSubscriptionsHandler db st r).calls ≠ []) :
    ∃ (conds : List String) (args : List Arg) (failed : Bool),
      (GetTotalSubscriptionsHandler db st r).calls =
        [⟨if conds = [] then "SELECT COALESCE(SUM(price), 0) FROM subscriptions"
          else "SELECT COALESCE(SUM(price), 0) FROM subscriptions" ++ " WHERE " ++
            String.intercalate " AND " conds, args, failed⟩] ∧
      args.length = conds.length ∧
      ∀ (k : Nat) (c : String) (a : Arg), conds.get? k = some c → args.get? k = some a →
        (c = "user_id = $" ++ toString (k + 1) ∧
          a = Arg.str (Values.Get r.query "user_id")) ∨
        (c = "service_name = $" ++ toString (k + 1) ∧
          a = Arg.str (Values.Get r.query "service_name")) ∨
        (c = "start_date >= $" ++ toString (k + 1) ∧
          ∃ t, timeParse (Values.Get r.query "start_date") = some t ∧ a = Arg.time t) := by
  cases hf : totalFilters (Values.Get r.query "user_id") (Values.Get r.query "service_name")
      (Values.Get r.query "start_date") with
  | none =>
    rw [total_calls_none db st r hf] at hq
    exact absurd rfl hq
  | some p =>
    obtain ⟨conds, args⟩ := p
    obtain ⟨failed, hc⟩ := total_calls_some db st r conds args hf
    obtain ⟨hlen, hpairs⟩ := totalFilters_pairs _ _ _ conds args hf
    refine ⟨conds, args, failed, ?_, hlen, hpairs⟩
    rw [hc]
    cases conds with
    | nil => rfl
    | cons c cs =>
      simp only [totalSQL, List.length_cons, gt_iff_lt, Nat.zero_lt_succ, if_true,
        reduceCtorEq, if_false, String.append_assoc]

theorem total_placeholders_match_args_witness :
    ∃ (conds : List String) (args : List Arg) (failed : Bool),
      (GetTotalSubscriptionsHandler (countingPool false 5 []) 0
        (requestOf (queryOf ["60601fee"] [] ["07-2025"]) "" "")).calls =
        [⟨if conds = [] then "SELECT COALESCE(SUM(price), 0) FROM subscriptions"
          else "SELECT COALESCE(SUM(price), 0) FROM subscriptions" ++ " WHERE " ++
            String.intercalate " AND " conds, args, failed⟩] ∧
      args.length = conds.length :=
  let ⟨conds, args, failed, h1, h2, _⟩ :=
    total_placeholders_match_args (countingPool false 5 []) 0
      (requestOf (queryOf ["60601fee"] [] ["07-2025"]) "" "") (by decide)
  ⟨conds, args, failed, h1, h2⟩

/-- C3: the text sent by `GetTotalSubscriptionsHandler` does not depend on the values of the
parameters: two requests that supply the same parameters among `user_id`, `service_name`
and `start_date` (each `start_date` valid where supplied) send the same text, whatever the
stores and pools. -/
theorem total_sql_independent_of_values {σ τ : Type} (db1 : Pool σ) (st1 : σ) (r1 : Request)
    (db2 : Pool τ) (st2 : τ) (r2 : Request)
    (hu : supplied r1.query "user_id" = supplied r2.query "user_id")
    (hs : supplied r1.query "service_name" = supplied r2.query "service_name")
    (hd : supplied r1.query "start_date" = supplied r2.query "start_date")
    (hv1 : supplied r1.query "start_date" = true →
      isMonthYearText (Values.Get r1.query "start_date") = true)
    (hv2 : supplied r2.query "start_date" = true →
      isMonthYearText (Values.Get r2.query "start_date") = true) :
    (GetTotalSubscriptionsHandler db1 st1 r1).calls.map Call.sql =
      (GetTotalSubscriptionsHandler db2 st2 r2).calls.map Call.sql := by
  rw [total_sql_of_valid db1 st1 r1 hv1, total_sql_of_valid db2 st2 r2 hv2, hu, hs, hd]

theorem total_sql_independent_of_values_witness :
    (GetTotalSubscriptionsHandler (countingPool false 5 []) 0
      (requestOf (queryOf ["60601fee"] ["Yandex Plus"] ["07-2025"]) "" "")).calls.map Call.sql =
    (GetTotalSubscriptionsHandler (countingPool true 0 []) 7
      (requestOf (queryOf ["x OR 1=1 --"] ["; DROP TABLE subscriptions"] ["12-1999"])
        "" "")).calls.map Call.sql :=
  total_sql_independent_of_values _ _ _ _ _ _ (by decide) (by decide) (by decide)
    (by decide) (by decide)

/-- C10: in `GetTotalSubscriptionsHandler` a parameter present with an empty value is
treated as an absent one: giving the value `""` to an absent key (any key, so `user_id`,
`service_name` and `start_date` among them) leaves the whole outcome (response, store,
statement text and arguments) unchanged; and a request whose `start_date` reads empty is
not answered 400, it goes on to the query. -/
theorem total_empty_value_as_absent {σ : Type} (db : Pool σ) (st : σ) (r : Request)
    (key : String) (habs : r.query key = []) :
    GetTotalSubscriptionsHandler db st ⟨Function.update r.query key [""], r.vars, r.body⟩ =
      GetTotalSubscriptionsHandler db st r ∧
    (Values.Get r.query "start_date" = "" →
      (GetTotalSubscriptionsHandler db st r).status ≠ StatusBadRequest ∧
      (GetTotalSubscriptionsHandler db st r).calls.length = 1) := by
  constructor
  · simp only [GetTotalSubscriptionsHandler, values_get_update r.query key _ habs]
  · intro hd
    cases hf : totalFilters (Values.Get r.query "user_id")
        (Values.Get r.query "service_name") (Values.Get r.query "start_date") with
    | none =>
      have := (totalFilters_none_iff _ _ _).mp hf
      exact absurd hd this.1
    | some p =>
      obtain ⟨conds, args⟩ := p
      simp only [GetTotalSubscriptionsHandler, hf, Outcome.status]
      rcases hq : db.QueryRowInt st (totalSQL conds) args with ⟨res, st1⟩
      cases res with
      | error e =>
        simp only [httpError_status]
        exact ⟨by decide, rfl⟩
      | ok total =>
        refine ⟨?_, rfl⟩
        simp [ResponseWriter.new, ResponseWriter.HeaderSet, ResponseWriter.WriteHeader,
          ResponseWriter.Write, ResponseWriter.statusCode, StatusBadRequest]

theorem total_empty_value_as_absent_witness :
    GetTotalSubscriptionsHandler (countingPool false 5 []) 0
        ⟨Function.update (queryOf ["60601fee"] [] []) "start_date" [""], fun _ => "", ""⟩ =
      GetTotalSubscriptionsHandler (countingPool false 5 []) 0
        ⟨queryOf ["60601fee"] [] [], fun _ => "", ""⟩ :=
  (total_empty_value_as_absent (countingPool false 5 []) 0
    ⟨queryOf ["60601fee"] [] [], fun _ => "", ""⟩ "start_date" (by decide)).1

/-! ## Status codes of the handlers -/

theorem abortsWith_httpError {σ : Type} (st : σ) (msg : String) :
    abortsWith (⟨httpError ResponseWriter.new msg StatusBadRequest, st, []⟩ : Outcome σ)
      st msg :=
  ⟨httpError_status msg StatusBadRequest, httpError_body msg StatusBadRequest, rfl, rfl⟩

theorem create_cases {σ : Type} (db : Pool σ) (js : Json) (id : UUID) (st : σ) (r : Request) :
    (js.decodeCreate r.body = none ∧ CreateSubscriptionHandler db js id st r =
        ⟨httpError ResponseWriter.new "invalid request" StatusBadRequest, st, []⟩) ∨
    (∃ req, js.decodeCreate r.body = some req ∧ timeParse req.StartDate = none ∧
      CreateSubscriptionHandler db js id st r =
        ⟨httpError ResponseWriter.new "invalid start date" StatusBadRequest, st, []⟩) ∨
    (∃ req sd e, js.decodeCreate r.body = some req ∧ timeParse req.StartDate = some sd ∧
      req.EndDate = some e ∧ timeParse e = none ∧
      CreateSubscriptionHandler db js id st r =
        ⟨httpError ResponseWriter.new "invalid end date" StatusBadRequest, st, []⟩) ∨
    (∃ req sd ed args res st1, js.decodeCreate r.body = some req ∧
      timeParse req.StartDate = some sd ∧
      (req.EndDate = none ∧ ed = none ∨ ∃ e, req.EndDate = some e ∧ timeParse e = ed ∧
        ed ≠ none) ∧
      args = [Arg.uuid id, Arg.str req.ServiceName, Arg.int req.Price, Arg.uuid req.UserID,
        Arg.time sd, Arg.timePtr ed] ∧
      db.Exec st insertSQL args = (res, st1) ∧
      CreateSubscriptionHandler db js id st r =
        match res with
        | Except.error _ =>
          ⟨httpError ResponseWriter.new "failed to insert subscription"
            StatusInternalServerError, st1, [⟨insertSQL, args, true⟩]⟩
        | Except.ok _ =>
          ⟨((ResponseWriter.new.WriteHeader StatusCreated).HeaderSet "Content-Type"
              "application/json").Write ("\x7b\"id\":\"" ++ id.text ++ "\"\x7d\n"), st1,
            [⟨insertSQL, args, false⟩]⟩) := by
  cases hdec : js.decodeCreate r.body with
  | none => left; exact ⟨rfl, by simp only [CreateSubscriptionHandler, hdec]⟩
  | some req =>
    right
    cases hsd : timeParse req.StartDate with
    | none => left; exact ⟨req, rfl, hsd, by simp only [CreateSubscriptionHandler, hdec, hsd]⟩
    | some sd =>
      right
      cases hend : req.EndDate with
      | none =>
        right
        rcases hx : db.Exec st insertSQL [Arg.uuid id, Arg.str req.ServiceName,
          Arg.int req.Price, Arg.uuid req.UserID, Arg.time sd, Arg.timePtr none] with ⟨res, st1⟩
        refine ⟨req, sd, none, _, res, st1, rfl, hsd, Or.inl ⟨hend, rfl⟩, rfl, hx, ?_⟩
        simp only [CreateSubscriptionHandler, hdec, hsd, hend, hx]
        cases res <;> rfl
      | some e =>
        cases he : timeParse e with
        | none =>
          left
          exact ⟨req, sd, e, rfl, hsd, hend, he,
            by simp only [CreateSubscriptionHandler, hdec, hsd, hend, he]⟩
        | some ed =>
          right
          rcases hx : db.Exec st insertSQL [Arg.uuid id, Arg.str req.ServiceName,
            Arg.int req.Price, Arg.uuid req.UserID, Arg.time sd, Arg.timePtr (some ed)]
            with ⟨res, st1⟩
          refine ⟨req, sd, some ed, _, res, st1, rfl, hsd,
            Or.inr ⟨e, hend, he, by simp⟩, rfl, hx, ?_⟩
          simp only [CreateSubscriptionHandler, hdec, hsd, hend, he, hx]
          cases res <;> rfl

theorem update_cases {σ : Type} (db : Pool σ) (js : Json) (st : σ) (r : Request) :
    (js.decodeUpdate r.body = none ∧ UpdateSubscriptionHandler db js st r =
        ⟨httpError ResponseWriter.new "invalid request" StatusBadRequest, st, []⟩) ∨
    (∃ req, js.decodeUpdate r.body = some req ∧ timeParse req.StartDate = none ∧
      UpdateSubscriptionHandler db js st r =
        ⟨httpError ResponseWriter.new "invalid start date" StatusBadRequest, st, []⟩) ∨
    (∃ req sd e, js.decodeUpdate r.body = some req ∧ timeParse req.StartDate = some sd ∧
      req.EndDate = some e ∧ timeParse e = none ∧
      UpdateSubscriptionHandler db js st r =
        ⟨httpError ResponseWriter.new "invalid end date" StatusBadRequest, st, []⟩) ∨
    (∃ req sd ed args res st1, js.decodeUpdate r.body = some req ∧
      timeParse req.StartDate = some sd ∧
      (req.EndDate = none ∧ ed = none ∨ ∃ e, req.EndDate = some e ∧ timeParse e = ed ∧
        ed ≠ none) ∧
      args = [Arg.str req.ServiceName, Arg.int req.Price, Arg.time sd, Arg.timePtr ed,
        Arg.str (r.vars "id")] ∧
      db.Exec st updateSQL args = (res, st1) ∧
      UpdateSubscriptionHandler db js st r =
        match res with
        | Except.error _ =>
          ⟨httpError ResponseWriter.new "failed to update" StatusInternalServerError, st1,
            [⟨updateSQL, args, true⟩]⟩
        | Except.ok _ =>
          ⟨ResponseWriter.new.WriteHeader StatusNoContent, st1,
            [⟨updateSQL, args, false⟩]⟩) := by
  cases hdec : js.decodeUpdate r.body with
  | none => left; exact ⟨rfl, by simp only [UpdateSubscriptionHandler, hdec]⟩
  | some req =>
    right
    cases hsd : timeParse req.StartDate with
    | none => left; exact ⟨req, rfl, hsd, by simp only [UpdateSubscriptionHandler, hdec, hsd]⟩
    | some sd =>
      right
      cases hend : req.EndDate with
      | none =>
        right
        rcases hx : db.Exec st updateSQL [Arg.str req.ServiceName, Arg.int req.Price,
          Arg.time sd, Arg.timePtr none, Arg.str (r.vars "id")] with ⟨res, st1⟩
        refine ⟨req, sd, none, _, res, st1, rfl, hsd, Or.inl ⟨hend, rfl⟩, rfl, hx, ?_⟩
        simp only [UpdateSubscriptionHandler, hdec, hsd, hend, hx]
        cases res <;> rfl
      | some e =>
        cases he : timeParse e with
        | none =>
          left
          exact ⟨req, sd, e, rfl, hsd, hend, he,
            by simp only [UpdateSubscriptionHandler, hdec, hsd, hend, he]⟩
        | some ed =>
          right
          rcases hx : db.Exec st updateSQL [Arg.str req.ServiceName, Arg.int req.Price,
            Arg.time sd, Arg.timePtr (some ed), Arg.str (r.vars "id")] with ⟨res, st1⟩
          refine ⟨req, sd, some ed, _, res, st1, rfl, hsd,
            Or.inr ⟨e, hend, he, by simp⟩, rfl, hx, ?_⟩
          simp only [UpdateSubscriptionHandler, hdec, hsd, hend, he, hx]
          cases res <;> rfl

theorem delete_cases {σ : Type} (db : Pool σ) (st : σ) (r : Request) :
    ∃ res st1, db.Exec st deleteSQL [Arg.str (r.vars "id")] = (res, st1) ∧
      DeleteSubscriptionHandler db st r =
        match res with
        | Except.error _ =>
          ⟨httpError ResponseWriter.new "db error" StatusInternalServerError, st1,
            [⟨deleteSQL, [Arg.str (r.vars "id")], true⟩]⟩
        | Except.ok n =>
          if n = 0 then
            ⟨httpError ResponseWriter.new "subscription not found" StatusNotFound, st1,
              [⟨deleteSQL, [Arg.str (r.vars "id")], false⟩]⟩
          else
            ⟨ResponseWriter.new.WriteHeader StatusNoContent, st1,
              [⟨deleteSQL, [Arg.str (r.vars "id")], false⟩]⟩ := by
  rcases hx : db.Exec st deleteSQL [Arg.str (r.vars "id")] with ⟨res, st1⟩
  refine ⟨res, st1, rfl, ?_⟩
  simp only [DeleteSubscriptionHandler, hx]
  cases res <;> rfl

theorem writeHeader_status (code : Nat) :
    (ResponseWriter.new.WriteHeader code).statusCode = code := by
  simp [ResponseWriter.new, ResponseWriter.WriteHeader, ResponseWriter.statusCode]

/-- C7: for every update request whose body decodes and whose dates parse, if the UPDATE
statement comes back without error, `UpdateSubscriptionHandler` answers 204 whatever the
number `n` of rows affected; so with `n = 0`, an id that matches no row, the answer is
204 and not 404. -/
theorem update_success_is_204 {σ : Type} (db : Pool σ) (js : Json) (st st1 : σ) (r : Request)
    (req : UpdateSubscriptionRequest) (sd : Time) (ed : Option Time) (n : Nat)
    (hdec : js.decodeUpdate r.body = some req)
    (hsd : timeParse req.StartDate = some sd)
    (hed : req.EndDate = none ∧ ed = none ∨
      ∃ e t, req.EndDate = some e ∧ timeParse e = some t ∧ ed = some t)
    (hexec : db.Exec st updateSQL [Arg.str req.ServiceName, Arg.int req.Price, Arg.time sd,
      Arg.timePtr ed, Arg.str (r.vars "id")] = (Except.ok n, st1)) :
    (UpdateSubscriptionHandler db js st r).status = StatusNoContent ∧
    (UpdateSubscriptionHandler db js st r).status ≠ StatusNotFound := by
  have h : (UpdateSubscriptionHandler db js st r).status = StatusNoContent := by
    rcases hed with ⟨he, rfl⟩ | ⟨e, t, he, ht, rfl⟩
    · simp only [UpdateSubscriptionHandler, hdec, hsd, he, hexec, Outcome.status]
      exact writeHeader_status _
    · simp only [UpdateSubscriptionHandler, hdec, hsd, he, ht, hexec, Outcome.status]
      exact writeHeader_status _
  exact ⟨h, by rw [h]; decide⟩

theorem update_success_is_204_witness :
    (UpdateSubscriptionHandler (countingPool false 0 [])
      (fixedJson none (some (sampleUpdate "07-2025" (some "12-2025")))) 0
      (requestOf (queryOf [] [] []) "no-such-id" "")).status = 204 :=
  (update_success_is_204 (countingPool false 0 [])
    (fixedJson none (some (sampleUpdate "07-2025" (some "12-2025")))) 0 1
    (requestOf (queryOf [] [] []) "no-such-id" "")
    (sampleUpdate "07-2025" (some "12-2025")) ⟨2025, 7, 1⟩ (some ⟨2025, 12, 1⟩) 0
    rfl (by decide) (Or.inr ⟨"12-2025", ⟨2025, 12, 1⟩, rfl, by decide, rfl⟩) rfl).1

/-- C8: for every delete request `DeleteSubscriptionHandler` sends exactly one statement,
the DELETE bound to the path id, and answers 500 if it fails, 404 if it succeeds with no
row affected, 204 if it succeeds with a positive number of rows affected; the status is
one of these three. -/
theorem delete_status {σ : Type} (db : Pool σ) (st : σ) (r : Request) :
    (∃ failed, (DeleteSubscriptionHandler db st r).calls =
      [⟨deleteSQL, [Arg.str (r.vars "id")], failed⟩]) ∧
    (∀ e st1, db.Exec st deleteSQL [Arg.str (r.vars "id")] = (Except.error e, st1) →
      (DeleteSubscriptionHandler db st r).status = StatusInternalServerError) ∧
    (∀ st1, db.Exec st deleteSQL [Arg.str (r.vars "id")] = (Except.ok 0, st1) →
      (DeleteSubscriptionHandler db st r).status = StatusNotFound) ∧
    (∀ n st1, 0 < n → db.Exec st deleteSQL [Arg.str (r.vars "id")] = (Except.ok n, st1) →
      (DeleteSubscriptionHandler db st r).status = StatusNoContent) ∧
    ((DeleteSubscriptionHandler db st r).status = 500 ∨
      (DeleteSubscriptionHandler db st r).status = 404 ∨
      (DeleteSubscriptionHandler db st r).status = 204) := by
  obtain ⟨res, st1, hx, hd⟩ := delete_cases db st r
  rw [hd]
  refine ⟨?_, ?_, ?_, ?_, ?_⟩
  · cases res with
    | error e => exact ⟨true, rfl⟩
    | ok n =>
      by_cases hn : n = 0
      · exact ⟨false, by simp only [hn, if_true]⟩
      · exact ⟨false, by simp only [hn, if_false]⟩
  · intro e st2 h
    rw [hx] at h
    cases h
    exact httpError_status _ _
  · intro st2 h
    rw [hx] at h
    cases h
    exact httpError_status _ _
  · intro n st2 hn h
    rw [hx] at h
    cases h
    have : n ≠ 0 := by omega
    simp only [this, if_false, Outcome.status]
    exact writeHeader_status _
  · cases res with
    | error e => left; exact httpError_status _ _
    | ok n =>
      by_cases hn : n = 0
      · right; left
        simp only [hn, if_true]
        exact httpError_status _ _
      · right; right
        simp only [hn, if_false, Outcome.status]
        exact writeHeader_status _

theorem delete_status_witness :
    (DeleteSubscriptionHandler (countingPool false 0 []) 0
      (requestOf (queryOf [] [] []) "no-such-id" "")).status = 404 :=
  (delete_status (countingPool false 0 []) 0
    (requestOf (queryOf [] [] []) "no-such-id" "")).2.2.1 1 rfl

theorem timeParse_bad (bad : String) (h : bad ∈ ["13-2025", "07-25", "2025-07"]) :
    timeParse bad = none := by
  simp only [List.mem_cons, List.mem_singleton, List.not_mem_nil, or_false] at h
  rcases h with rfl | rfl | rfl <;> decide

theorem create_bad_date {σ : Type} (db : Pool σ) (js : Json) (id : UUID) (st : σ)
    (r : Request) (req : CreateSubscriptionRequest) (bad : String)
    (hbad : timeParse bad = none) (hdec : js.decodeCreate r.body = some req)
    (hreq : req.StartDate = bad ∨ req.EndDate = some bad) :
    (CreateSubscriptionHandler db js id st r).status = StatusBadRequest := by
  rcases create_cases db js id st r with ⟨_, h⟩ | ⟨_, _, _, h⟩ | ⟨_, _, _, _, _, _, _, h⟩ |
    ⟨req1, sd, ed, args, res, st1, h1, h2, h3, _, _, _⟩
  · rw [h]; exact httpError_status _ _
  · rw [h]; exact httpError_status _ _
  · rw [h]; exact httpError_status _ _
  · rw [hdec] at h1
    cases h1
    rcases hreq with hs | he
    · rw [hs, hbad] at h2; cases h2
    · rcases h3 with ⟨h3, _⟩ | ⟨e, h3, h4, h5⟩
      · rw [he] at h3; cases h3
      · rw [he] at h3
        cases h3
        rw [hbad] at h4
        exact absurd h4.symm h5

theorem update_bad_date {σ : Type} (db : Pool σ) (js : Json) (st : σ)
    (r : Request) (req : UpdateSubscriptionRequest) (bad : String)
    (hbad : timeParse bad = none) (hdec : js.decodeUpdate r.body = some req)
    (hreq : req.StartDate = bad ∨ req.EndDate = some bad) :
    (UpdateSubscriptionHandler db js st r).status = StatusBadRequest := by
  rcases update_cases db js st r with ⟨_, h⟩ | ⟨_, _, _, h⟩ | ⟨_, _, _, _, _, _, _, h⟩ |
    ⟨req1, sd, ed, args, res, st1, h1, h2, h3, _, _, _⟩
  · rw [h]; exact httpError_status _ _
  · rw [h]; exact httpError_status _ _
  · rw [h]; exact httpError_status _ _
  · rw [hdec] at h1
    cases h1
    rcases hreq with hs | he
    · rw [hs, hbad] at h2; cases h2
    · rcases h3 with ⟨h3, _⟩ | ⟨e, h3, h4, h5⟩
      · rw [he] at h3; cases h3
      · rw [he] at h3
        cases h3
        rw [hbad] at h4
        exact absurd h4.symm h5

theorem total_bad_date {σ : Type} (db : Pool σ) (st : σ) (r : Request)
    (hne : Values.Get r.query "start_date" ≠ "")
    (hbad : timeParse (Values.Get r.query "start_date") = none) :
    GetTotalSubscriptionsHandler db st r =
      ⟨httpError ResponseWriter.new "invalid start_date format" StatusBadRequest, st, []⟩ :=
  total_calls_none db st r ((totalFilters_none_iff _ _ _).mpr ⟨hne, hbad⟩)

/-- C4: `time.Parse("01-2006", s)` succeeds if and only if `s` is exactly a two-digit
month between 01 and 12, a dash and a four-digit year; `"13-2025"`, `"07-25"` and
`"2025-07"` are rejected; and `CreateSubscriptionHandler` and `UpdateSubscriptionHandler`
(with one of the three as `start_date` or as `end_date` of a body that decodes) and
`GetTotalSubscriptionsHandler` (with one of them as `start_date`) answer 400. -/
theorem date_parse_accepts_month_year :
    (∀ s : String, (timeParse s).isSome = true ↔ isMonthYearText s = true) ∧
    timeParse "13-2025" = none ∧ timeParse "07-25" = none ∧ timeParse "2025-07" = none ∧
    (∀ (σ : Type) (db : Pool σ) (js : Json) (id : UUID) (st : σ) (r : Request)
        (req : CreateSubscriptionRequest) (bad : String),
      bad ∈ ["13-2025", "07-25", "2025-07"] → js.decodeCreate r.body = some req →
      (req.StartDate = bad ∨ req.EndDate = some bad) →
      (CreateSubscriptionHandler db js id st r).status = 400) ∧
    (∀ (σ : Type) (db : Pool σ) (js : Json) (st : σ) (r : Request)
        (req : UpdateSubscriptionRequest) (bad : String),
      bad ∈ ["13-2025", "07-25", "2025-07"] → js.decodeUpdate r.body = some req →
      (req.StartDate = bad ∨ req.EndDate = some bad) →
      (UpdateSubscriptionHandler db js st r).status = 400) ∧
    (∀ (σ : Type) (db : Pool σ) (st : σ) (r : Request) (bad : String),
      bad ∈ ["13-2025", "07-25", "2025-07"] → Values.Get r.query "start_date" = bad →
      (GetTotalSubscriptionsHandler db st r).status = 400) := by
  refine ⟨timeParse_isSome_iff, by decide, by decide, by decide, ?_, ?_, ?_⟩
  · intro σ db js id st r req bad hmem hdec hreq
    exact create_bad_date db js id st r req bad (timeParse_bad bad hmem) hdec hreq
  · intro σ db js st r req bad hmem hdec hreq
    exact update_bad_date db js st r req bad (timeParse_bad bad hmem) hdec hreq
  · intro σ db st r bad hmem hget
    have hne : Values.Get r.query "start_date" ≠ "" := by
      rw [hget]
      simp only [List.mem_cons, List.mem_singleton, List.not_mem_nil, or_false] at hmem
      rcases hmem with rfl | rfl | rfl <;> decide
    rw [total_bad_date db st r hne (by rw [hget]; exact timeParse_bad bad hmem)]
    exact httpError_status _ _

theorem date_parse_accepts_month_year_witness :
    (timeParse "07-2025").isSome = true ∧
    (UpdateSubscriptionHandler (countingPool false 1 [])
      (fixedJson none (some (sampleUpdate "07-2025" (some "2025-07")))) 0
      (requestOf (queryOf [] [] []) "7d0a4b1e" "")).status = 400 :=
  ⟨(date_parse_accepts_month_year.1 "07-2025").mpr (by decide),
    date_parse_accepts_month_year.2.2.2.2.2.1 Nat (countingPool false 1 [])
      (fixedJson none (some (sampleUpdate "07-2025" (some "2025-07")))) 0
      (requestOf (queryOf [] [] []) "7d0a4b1e" "")
      (sampleUpdate "07-2025" (some "2025-07")) "2025-07" (by decide) rfl (Or.inr rfl)⟩

/-- C6: validation failures abort before the pool is used. In `CreateSubscriptionHandler`
and `UpdateSubscriptionHandler` a body that does not decode is answered 400 with
`invalid request`; otherwise a `start_date` that does not parse, 400 with
`invalid start date`; otherwise an `end_date` that is present and does not parse, 400 with
`invalid end date`. In `GetTotalSubscriptionsHandler` a supplied (non-empty) `start_date`
that does not parse is answered 400 with `invalid start_date format`. In each case the
store is unchanged and no statement is sent. -/
theorem validation_aborts_before_store {σ : Type} (db : Pool σ) (js : Json) (id : UUID)
    (st : σ) (r : Request) :
    (js.decodeCreate r.body = none →
      abortsWith (CreateSubscriptionHandler db js id st r) st "invalid request") ∧
    (∀ req, js.decodeCreate r.body = some req → timeParse req.StartDate = none →
      abortsWith (CreateSubscriptionHandler db js id st r) st "invalid start date") ∧
    (∀ req e, js.decodeCreate r.body = some req → (timeParse req.StartDate).isSome = true →
      req.EndDate = some e → timeParse e = none →
      abortsWith (CreateSubscriptionHandler db js id st r) st "invalid end date") ∧
    (js.decodeUpdate r.body = none →
      abortsWith (UpdateSubscriptionHandler db js st r) st "invalid request") ∧
    (∀ req, js.decodeUpdate r.body = some req → timeParse req.StartDate = none →
      abortsWith (UpdateSubscriptionHandler db js st r) st "invalid start date") ∧
    (∀ req e, js.decodeUpdate r.body = some req → (timeParse req.StartDate).isSome = true →
      req.EndDate = some e → timeParse e = none →
      abortsWith (UpdateSubscriptionHandler db js st r) st "invalid end date") ∧
    (Values.Get r.query "start_date" ≠ "" →
      timeParse (Values.Get r.query "start_date") = none →
      abortsWith (GetTotalSubscriptionsHandler db st r) st "invalid start_date format") := by
  refine ⟨?_, ?_, ?_, ?_, ?_, ?_, ?_⟩
  · intro h
    simp only [CreateSubscriptionHandler, h]
    exact abortsWith_httpError st _
  · intro req h1 h2
    simp only [CreateSubscriptionHandler, h1, h2]
    exact abortsWith_httpError st _
  · intro req e h1 h2 h3 h4
    obtain ⟨sd, hsd⟩ := Option.isSome_iff_exists.mp h2
    simp only [CreateSubscriptionHandler, h1, hsd, h3, h4]
    exact abortsWith_httpError st _
  · intro h
    simp only [UpdateSubscriptionHandler, h]
    exact abortsWith_httpError st _
  · intro req h1 h2
    simp only [UpdateSubscriptionHandler, h1, h2]
    exact abortsWith_httpError st _
  · intro req e h1 h2 h3 h4
    obtain ⟨sd, hsd⟩ := Option.isSome_iff_exists.mp h2
    simp only [UpdateSubscriptionHandler, h1, hsd, h3, h4]
    exact abortsWith_httpError st _
  · intro hne hbad
    rw [total_bad_date db st r hne hbad]
    exact abortsWith_httpError st _

theorem validation_aborts_before_store_witness :
    abortsWith (CreateSubscriptionHandler (countingPool false 1 [])
      (fixedJson (some (sampleCreate "07-2025" (some "07-25"))) none) sampleID 3
      (requestOf (queryOf [] [] []) "" "")) 3 "invalid end date" :=
  (validation_aborts_before_store (countingPool false 1 [])
    (fixedJson (some (sampleCreate "07-2025" (some "07-25"))) none) sampleID 3
    (requestOf (queryOf [] [] []) "" "")).2.2.1
    (sampleCreate "07-2025" (some "07-25")) "07-25" rfl (by decide) rfl (by decide)

theorem not_statementFailed_nil {σ : Type} (w : ResponseWriter) (st : σ) :
    ¬ statementFailed (⟨w, st, []⟩ : Outcome σ) := by
  simp [statementFailed]

theorem getByID_cases {σ : Type} (db : Pool σ) (js : Json) (st : σ) (r : Request) :
    ∃ res st1, db.QueryRowSubscription st selectByIDSQL [Arg.str (r.vars "id")] = (res, st1) ∧
      GetSubscriptionByIDHandler db js st r =
        match res with
        | Except.error _ =>
          ⟨httpError ResponseWriter.new "subscription not found" StatusNotFound, st1,
            [⟨selectByIDSQL, [Arg.str (r.vars "id")], true⟩]⟩
        | Except.ok sub =>
          ⟨(ResponseWriter.new.HeaderSet "Content-Type" "application/json").Write
              (js.encodeSubscription sub ++ "\n"), st1,
            [⟨selectByIDSQL, [Arg.str (r.vars "id")], false⟩]⟩ := by
  rcases hx : db.QueryRowSubscription st selectByIDSQL [Arg.str (r.vars "id")] with ⟨res, st1⟩
  refine ⟨res, st1, rfl, ?_⟩
  simp only [GetSubscriptionByIDHandler, hx]
  cases res <;> rfl

/-- C5, as stated, fails for get-by-id: with a pool whose every statement fails
(`connection refused`), `GetSubscriptionByIDHandler` sends its SELECT, the statement
fails, and the answer is 404, not 500. -/
theorem get_by_id_failure_is_404 :
    statementFailed (GetSubscriptionByIDHandler (countingPool true 0 []) (fixedJson none none)
      0 (requestOf (queryOf [] [] []) "7d0a4b1e-93f0-4c0e-8a59-2f6c3b1d5e42" "")) ∧
    (GetSubscriptionByIDHandler (countingPool true 0 []) (fixedJson none none)
      0 (requestOf (queryOf [] [] []) "7d0a4b1e-93f0-4c0e-8a59-2f6c3b1d5e42" "")).status = 404 ∧
    (GetSubscriptionByIDHandler (countingPool true 0 []) (fixedJson none none)
      0 (requestOf (queryOf [] [] []) "7d0a4b1e-93f0-4c0e-8a59-2f6c3b1d5e42" "")).status ≠
      StatusInternalServerError := by
  refine ⟨⟨⟨selectByIDSQL, [Arg.str "7d0a4b1e-93f0-4c0e-8a59-2f6c3b1d5e42"], true⟩, ?_, rfl⟩,
    ?_, ?_⟩ <;> decide

/-- C5, amended: whenever the statement a handler sends fails, the create, list-all,
aggregate-total, update and delete handlers answer 500; the get-by-id handler answers 404
for every failure of its query, a connection failure included. -/
theorem statement_failure_status {σ : Type} (db : Pool σ) (js : Json) (id : UUID) (st : σ)
    (r : Request) :
    (statementFailed (CreateSubscriptionHandler db js id st r) →
      (CreateSubscriptionHandler db js id st r).status = 500) ∧
    (statementFailed (GetAllSubscriptionsHandler db js st r) →
      (GetAllSubscriptionsHandler db js st r).status = 500) ∧
    (statementFailed (GetTotalSubscriptionsHandler db st r) →
      (GetTotalSubscriptionsHandler db st r).status = 500) ∧
    (statementFailed (UpdateSubscriptionHandler db js st r) →
      (UpdateSubscriptionHandler db js st r).status = 500) ∧
    (statementFailed (DeleteSubscriptionHandler db st r) →
      (DeleteSubscriptionHandler db st r).status = 500) ∧
    (statementFailed (GetSubscriptionByIDHandler db js st r) →
      (GetSubscriptionByIDHandler db js st r).status = 404) := by
  refine ⟨?_, ?_, ?_, ?_, ?_, ?_⟩
  · rcases create_cases db js id st r with ⟨_, h⟩ | ⟨_, _, _, h⟩ | ⟨_, _, _, _, _, _, _, h⟩ |
      ⟨req1, sd, ed, args, res, st1, _, _, _, _, _, h⟩
    · rw [h]; intro hf; exact absurd hf (not_statementFailed_nil _ _)
    · rw [h]; intro hf; exact absurd hf (not_statementFailed_nil _ _)
    · rw [h]; intro hf; exact absurd hf (not_statementFailed_nil _ _)
    · rw [h]
      cases res with
      | error e => intro _; exact httpError_status _ _
      | ok n => intro hf; simp [statementFailed] at hf
  · rcases hx : db.Query st selectAllSQL [] with ⟨res, st1⟩
    cases res with
    | error e =>
      simp only [GetAllSubscriptionsHandler, hx]
      intro _; exact httpError_status _ _
    | ok rows =>
      cases hs : scanRows rows.scans [] with
      | none =>
        simp only [GetAllSubscriptionsHandler, hx, hs]
        intro hf; simp [statementFailed] at hf
      | some subs =>
        simp only [GetAllSubscriptionsHandler, hx, hs]
        intro hf; simp [statementFailed] at hf
  · cases hf : totalFilters (Values.Get r.query "user_id")
        (Values.Get r.query "service_name") (Values.Get r.query "start_date") with
    | none =>
      rw [total_calls_none db st r hf]
      intro h; exact absurd h (not_statementFailed_nil _ _)
    | some p =>
      obtain ⟨conds, args⟩ := p
      simp only [GetTotalSubscriptionsHandler, hf]
      rcases hq : db.QueryRowInt st (totalSQL conds) args with ⟨res, st1⟩
      cases res with
      | error e => intro _; exact httpError_status _ _
      | ok total => intro h; simp [statementFailed] at h
  · rcases update_cases db js st r with ⟨_, h⟩ | ⟨_, _, _, h⟩ | ⟨_, _, _, _, _, _, _, h⟩ |
      ⟨req1, sd, ed, args, res, st1, _, _, _, _, _, h⟩
    · rw [h]; intro hf; exact absurd hf (not_statementFailed_nil _ _)
    · rw [h]; intro hf; exact absurd hf (not_statementFailed_nil _ _)
    · rw [h]; intro hf; exact absurd hf (not_statementFailed_nil _ _)
    · rw [h]
      cases res with
      | error e => intro _; exact httpError_status _ _
      | ok n => intro hf; simp [statementFailed] at hf
  · obtain ⟨res, st1, _, h⟩ := delete_cases db st r
    rw [h]
    cases res with
    | error e => intro _; exact httpError_status _ _
    | ok n =>
      by_cases hn : n = 0
      · simp only [hn, if_true]; intro hf; simp [statementFailed] at hf
      · simp only [hn, if_false]; intro hf; simp [statementFailed] at hf
  · obtain ⟨res, st1, _, h⟩ := getByID_cases db js st r
    rw [h]
    cases res with
    | error e => intro _; exact httpError_status _ _
    | ok sub => intro hf; simp [statementFailed] at hf

theorem statement_failure_status_witness :
    statementFailed (DeleteSubscriptionHandler (countingPool true 0 []) 0
      (requestOf (queryOf [] [] []) "7d0a4b1e" "")) ∧
    (DeleteSubscriptionHandler (countingPool true 0 []) 0
      (requestOf (queryOf [] [] []) "7d0a4b1e" "")).status = 500 :=
  have hf : statementFailed (DeleteSubscriptionHandler (countingPool true 0 []) 0
      (requestOf (queryOf [] [] []) "7d0a4b1e" "")) :=
    ⟨⟨deleteSQL, [Arg.str "7d0a4b1e"], true⟩, by decide, rfl⟩
  ⟨hf, (statement_failure_status (countingPool true 0 []) (fixedJson none none) sampleID 0
    (requestOf (queryOf [] [] []) "7d0a4b1e" "")).2.2.2.2.1 hf⟩

theorem list_all_ignores_rows_err {σ : Type} (db : Pool σ) (js : Json) (st st1 : σ)
    (r : Request) (scans : List (Option Subscription)) (e : Option String)
    (subs : List Subscription)
    (hq : db.Query st selectAllSQL [] = (Except.ok ⟨scans, e⟩, st1))
    (hs : scanRows scans [] = some subs) :
    (GetAllSubscriptionsHandler db js st r).status = 200 ∧
    (GetAllSubscriptionsHandler db js st r).w.body = js.encodeSubscriptions subs ++ "\n" := by
  simp only [GetAllSubscriptionsHandler, hq, hs]
  simp [Outcome.status, ResponseWriter.new, ResponseWriter.HeaderSet,
    ResponseWriter.WriteHeader, ResponseWriter.Write, ResponseWriter.statusCode]

/-! ## The response of a successful create -/

theorem create_success_response {σ : Type} (db : Pool σ) (js : Json) (id : UUID) (st st1 : σ)
    (r : Request) (req : CreateSubscriptionRequest) (sd : Time) (ed : Option Time) (n : Nat)
    (hdec : js.decodeCreate r.body = some req)
    (hsd : timeParse req.StartDate = some sd)
    (hed : req.EndDate = none ∧ ed = none ∨
      ∃ e t, req.EndDate = some e ∧ timeParse e = some t ∧ ed = some t)
    (hexec : db.Exec st insertSQL [Arg.uuid id, Arg.str req.ServiceName, Arg.int req.Price,
      Arg.uuid req.UserID, Arg.time sd, Arg.timePtr ed] = (Except.ok n, st1)) :
    CreateSubscriptionHandler db js id st r =
      ⟨⟨[("Content-Type", "application/json")], true, 201, [],
          "\x7b\"id\":\"" ++ id.text ++ "\"\x7d\n"⟩, st1,
        [⟨insertSQL, [Arg.uuid id, Arg.str req.ServiceName, Arg.int req.Price,
          Arg.uuid req.UserID, Arg.time sd, Arg.timePtr ed], false⟩]⟩ := by
  rcases hed with ⟨he, rfl⟩ | ⟨e, t, he, ht, rfl⟩
  · simp only [CreateSubscriptionHandler, hdec, hsd, he, hexec]
    simp [ResponseWriter.new, ResponseWriter.WriteHeader, ResponseWriter.HeaderSet,
      ResponseWriter.Write, Header.Set, StatusCreated]
  · simp only [CreateSubscriptionHandler, hdec, hsd, he, ht, hexec]
    simp [ResponseWriter.new, ResponseWriter.WriteHeader, ResponseWriter.HeaderSet,
      ResponseWriter.Write, Header.Set, StatusCreated]

/-- C9 at a valid create request whose INSERT succeeds: the status is 201, the body is
the object with the bound id, and the id is the first argument of the INSERT; but the
handler sets `Content-Type: application/json` after `WriteHeader(201)`, so the header is
in the handler's map only and the response carries no header set by the handler. -/
theorem create_content_type_set_after_write_header :
    (CreateSubscriptionHandler (countingPool false 1 [])
      (fixedJson (some (sampleCreate "07-2025" none)) none) sampleID 0
      (requestOf (queryOf [] [] []) "" "")).calls =
      [⟨insertSQL, [Arg.uuid sampleID, Arg.str "Yandex Plus", Arg.int 400,
        Arg.uuid sampleUser, Arg.time ⟨2025, 7, 1⟩, Arg.timePtr none], false⟩] ∧
    (CreateSubscriptionHandler (countingPool false 1 [])
      (fixedJson (some (sampleCreate "07-2025" none)) none) sampleID 0
      (requestOf (queryOf [] [] []) "" "")).status = 201 ∧
    (CreateSubscriptionHandler (countingPool false 1 [])
      (fixedJson (some (sampleCreate "07-2025" none)) none) sampleID 0
      (requestOf (queryOf [] [] []) "" "")).w.body =
      "\x7b\"id\":\"7d0a4b1e-93f0-4c0e-8a59-2f6c3b1d5e42\"\x7d\n" ∧
    (CreateSubscriptionHandler (countingPool false 1 [])
      (fixedJson (some (sampleCreate "07-2025" none)) none) sampleID 0
      (requestOf (queryOf [] [] []) "" "")).w.handlerHeader =
      [("Content-Type", "application/json")] ∧
    (CreateSubscriptionHandler (countingPool false 1 [])
      (fixedJson (some (sampleCreate "07-2025" none)) none) sampleID 0
      (requestOf (queryOf [] [] []) "" "")).w.responseHeader = [] ∧
    Header.Get (CreateSubscriptionHandler (countingPool false 1 [])
      (fixedJson (some (sampleCreate "07-2025" none)) none) sampleID 0
      (requestOf (queryOf [] [] []) "" "")).w.responseHeader "Content-Type" ≠
      "application/json" := by
  refine ⟨?_, ?_, ?_, ?_, ?_, ?_⟩ <;> decide

end SubAgg
